import Mathlib

/-!
# Verification of the evaluation and drift-detection core

Shallow embedding of the field-match comparator (`calculate_field_match`),
the batch evaluation scorer (`evaluate_extraction`) from
`src/pipeline/eval/metrics.py`, and the sliding-window drift detector
(`DriftDetector`) from `src/services/drift/service.py`.

Modelling conventions:
* Python run-time field values are a tagged union `Value`
  (null / int / float / Decimal / str / date / bool).  Python floats and
  Decimals are modelled as exact rationals; every decimal literal in the
  source is an exact rational, and the comparisons the code performs on
  them are order comparisons that the rational model reproduces.
* Python `bool` is a subclass of `int`, so `isinstance(x, int | float | Decimal)`
  is true for booleans; `Value.isNumeric` reflects this.
* Strings are compared characterwise; Python `len`/indexing count code
  points, matching Lean's `String.data`.
-/

namespace DocIntel

/-- Run-time field value as seen by `calculate_field_match` (metrics.py). -/
inductive Value where
  | none
  | int (n : ℤ)
  | float (q : ℚ)
  | decimal (q : ℚ)
  | str (s : String)
  | date (y m d : ℕ)
  | bool (b : Bool)
  deriving DecidableEq

/-- Python `isinstance(v, int | float | Decimal)` — true for booleans too, since
Python `bool` is a subclass of `int`. -/
def Value.isNumeric : Value → Bool
  | .int _ => true
  | .float _ => true
  | .decimal _ => true
  | .bool _ => true
  | _ => false

/-- The three numeric kinds the spec's numeric rule names explicitly:
integer, floating point, arbitrary-precision decimal. -/
def Value.isPureNumeric : Value → Bool
  | .int _ => true
  | .float _ => true
  | .decimal _ => true
  | _ => false

/-- Is the value a string? -/
def Value.isStr : Value → Bool
  | .str _ => true
  | _ => false

/-- Python `float(v)` for a numeric `v` (model: exact rational; `float(True) = 1.0`). -/
def Value.toFloat : Value → ℚ
  | .int n => (n : ℚ)
  | .float q => q
  | .decimal q => q
  | .bool b => if b then 1 else 0
  | _ => 0

/-- Characters Python's `str.strip()` / `str.split()` treat as whitespace
(ASCII subset; the source strings involved are ASCII). -/
def isPyWhitespace (c : Char) : Bool :=
  c = ' ' ∨ c = '\t' ∨ c = '\n' ∨ c = '\r' ∨ c = '\x0b' ∨ c = '\x0c'

/-- Python `s.strip()`: drop whitespace from both ends. -/
def pyStrip (s : String) : String :=
  String.mk (((s.data.dropWhile isPyWhitespace).reverse.dropWhile isPyWhitespace).reverse)

/-- Python `s.replace("\n", ", ")` — the pattern is the single newline
character, so a characterwise rewrite is exact. -/
def replaceNewlines (s : String) : String :=
  String.mk (s.data.foldr (fun c acc => if c = '\n' then ',' :: ' ' :: acc else c :: acc) [])

/-- Worker for Python `s.split()`: split on runs of whitespace, no empties. -/
def pySplitAux : List Char → List Char → List (List Char)
  | [], cur => if cur = [] then [] else [cur.reverse]
  | c :: rest, cur =>
    if isPyWhitespace c then
      (if cur = [] then pySplitAux rest [] else cur.reverse :: pySplitAux rest [])
    else pySplitAux rest (c :: cur)

/-- Python `s.split()` (whitespace split, empties dropped). -/
def pySplitWs (s : String) : List String :=
  (pySplitAux s.data []).map String.mk

/-- Python `" ".join(parts)`. -/
def joinSpace : List String → String
  | [] => ""
  | [x] => x
  | x :: xs => x ++ " " ++ joinSpace xs

/-- Python `s.lower()` (ASCII case folding, as in the source's data). -/
def pyLower (s : String) : String :=
  String.mk (s.data.map Char.toLower)

/-- The `normalize_string` helper inside `calculate_field_match`:
strip, lowercase, newlines to `", "`, collapse whitespace runs. -/
def normalize_string (s : String) : String :=
  joinSpace (pySplitWs (replaceNewlines (pyLower (pyStrip s))))

/-- Decimal digits of `n`, left-padded with zeros to width `w`. -/
def natPad (w n : ℕ) : String :=
  let ds := Nat.toDigits 10 n
  String.mk (List.replicate (w - ds.length) '0' ++ ds)

/-- Python `date(y, m, d).isoformat()`: zero-padded `YYYY-MM-DD`. -/
def isoformat (y m d : ℕ) : String :=
  natPad 4 y ++ "-" ++ natPad 2 m ++ "-" ++ natPad 2 d

/-- The `normalize_date` helper inside `calculate_field_match`: a native
date is ISO formatted, a string is merely trimmed, anything else gives
`None`. -/
def normalize_date : Value → Option String
  | .date y m d => some (isoformat y m d)
  | .str s => some (pyStrip s)
  | _ => Option.none

/-- The "looks like a date" sniff: a native date, or a string of exactly
10 characters whose character at index 4 is `-` (`val[4:5] == "-"`). -/
def isDateLike : Value → Bool
  | .date _ _ _ => true
  | .str s => decide (s.data.length = 10 ∧ s.data.getD 4 ' ' = '-')
  | _ => false

/-- Python `abs` on a rational (kernel-reducible form of `|q|`). -/
def ratAbs (q : ℚ) : ℚ :=
  if q < 0 then -q else q

/-- Python `==` on the value universe: numeric kinds compare by value
(`1 == 1.0 == Decimal("1") == True` numerically), same-kind values compare
componentwise, values of unrelated kinds are unequal. -/
def pyEq (a b : Value) : Bool :=
  if a.isNumeric ∧ b.isNumeric then decide (a.toFloat = b.toFloat)
  else
    match a, b with
    | .str s, .str t => decide (s = t)
    | .date y m d, .date y2 m2 d2 => decide (y = y2 ∧ m = m2 ∧ d = d2)
    | .none, .none => true
    | _, _ => false

/-- Rules 5–6 of the comparator: the case-insensitive normalized string
comparison when both values are strings, else the raw `==` fallback. -/
def matchTail (expected predicted : Value) : Bool :=
  match expected, predicted with
  | .str s, .str t => decide (normalize_string s = normalize_string t)
  | _, _ => pyEq expected predicted

/-- Function `calculate_field_match(expected, predicted)` from `metrics.py`:
both-null, one-null, numeric tolerance, date heuristic, normalized
string equality, raw-equality fallback — in that order. -/
def calculate_field_match (expected predicted : Value) : Bool :=
  if expected = Value.none ∧ predicted = Value.none then true
  else if expected = Value.none ∨ predicted = Value.none then false
  else if expected.isNumeric ∧ predicted.isNumeric then
    decide (ratAbs (expected.toFloat - predicted.toFloat) < 1 / 100)
  else if isDateLike expected ∧ isDateLike predicted then
    decide (normalize_date expected = normalize_date predicted)
  else matchTail expected predicted

/-- Structure `InvoiceData` (schema.py): a flat record of optionally-null field
values; `Value.none` is the explicit null. -/
structure InvoiceData where
  invoice_number : Value := .none
  invoice_date : Value := .none
  due_date : Value := .none
  supplier_name : Value := .none
  supplier_address : Value := .none
  customer_name : Value := .none
  subtotal : Value := .none
  tax_amount : Value := .none
  total_amount : Value := .none
  currency : Value := .none
  confidence_score : Value := .none
  deriving DecidableEq

/-- The fixed `fields` list of `evaluate_extraction`, paired with the
attribute accessor `getattr` resolves each name to. -/
def evalFields : List (String × (InvoiceData → Value)) :=
  [("invoice_number", InvoiceData.invoice_number),
   ("invoice_date", InvoiceData.invoice_date),
   ("due_date", InvoiceData.due_date),
   ("supplier_name", InvoiceData.supplier_name),
   ("supplier_address", InvoiceData.supplier_address),
   ("customer_name", InvoiceData.customer_name),
   ("subtotal", InvoiceData.subtotal),
   ("tax_amount", InvoiceData.tax_amount),
   ("total_amount", InvoiceData.total_amount),
   ("currency", InvoiceData.currency)]

/-- The three per-field confusion counters accumulated by
`evaluate_extraction`'s inner loop. -/
structure ConfusionTally where
  true_positive : ℕ
  false_positive : ℕ
  false_negative : ℕ
  deriving DecidableEq

/-- One iteration of `evaluate_extraction`'s inner loop: classify the
pair `(getattr(exp, field), getattr(pred, field))` into the four-way
decision tree and bump the counters. -/
def confusionStep (g : InvoiceData → Value) (acc : ConfusionTally)
    (pair : InvoiceData × InvoiceData) : ConfusionTally :=
  let exp_value := g pair.1
  let pred_value := g pair.2
  if exp_value ≠ Value.none ∧ pred_value ≠ Value.none then
    if calculate_field_match exp_value pred_value then
      { acc with true_positive := acc.true_positive + 1 }
    else
      { acc with false_positive := acc.false_positive + 1,
                 false_negative := acc.false_negative + 1 }
  else if exp_value ≠ Value.none ∧ pred_value = Value.none then
    { acc with false_negative := acc.false_negative + 1 }
  else if exp_value = Value.none ∧ pred_value ≠ Value.none then
    { acc with false_positive := acc.false_positive + 1 }
  else acc

/-- Confusion counters for one field over the zipped batch. -/
def confusionCounts (g : InvoiceData → Value)
    (pairs : List (InvoiceData × InvoiceData)) : ConfusionTally :=
  pairs.foldl (confusionStep g) ⟨0, 0, 0⟩

/-- Per-field derived metrics (`FieldMetrics` dataclass). -/
structure FieldMetrics where
  precision : ℚ
  «recall» : ℚ
  f1 : ℚ
  support : ℕ
  deriving DecidableEq

/-- precision/recall/f1 from a tally, 0.0 on zero denominators, with
`support` set to the full batch length (as in the source). -/
def metricsOfCounts (c : ConfusionTally) (support : ℕ) : FieldMetrics :=
  let precision : ℚ :=
    if c.true_positive + c.false_positive > 0 then
      (c.true_positive : ℚ) / ((c.true_positive : ℚ) + (c.false_positive : ℚ))
    else 0
  let «recall» : ℚ :=
    if c.true_positive + c.false_negative > 0 then
      (c.true_positive : ℚ) / ((c.true_positive : ℚ) + (c.false_negative : ℚ))
    else 0
  let f1 : ℚ :=
    if precision + «recall» > 0 then 2 * (precision * «recall») / (precision + «recall») else 0
  ⟨precision, «recall», f1, support⟩

/-- The `EvaluationReport` dataclass. -/
structure EvaluationReport where
  field_metrics : List (String × FieldMetrics)
  macro_f1 : ℚ
  total_samples : ℕ
  deriving DecidableEq

/-- Function `evaluate_extraction(expected, predicted)` from `metrics.py`:
length precondition, per-field confusion counting over the zipped
batches, per-field metrics with `support = len(expected)`, and the
macro-F1 as the mean of the ten per-field F1 values. -/
def evaluate_extraction (expected predicted : List InvoiceData) :
    Except String EvaluationReport :=
  if expected.length ≠ predicted.length then
    Except.error "Expected and predicted lists must have same length"
  else
    let pairs := expected.zip predicted
    let field_metrics :=
      evalFields.map fun fld => (fld.1, metricsOfCounts (confusionCounts fld.2 pairs) expected.length)
    let macro_f1 := (field_metrics.map fun m => m.2.f1).sum / (field_metrics.length : ℚ)
    Except.ok ⟨field_metrics, macro_f1, expected.length⟩

/-! ## Drift detector (`src/services/drift/service.py`)

A `deque(maxlen = w)` is modelled as a list together with the bounded
push `pushBounded`.  Timestamps, log lines and the Prometheus metric
objects are pure observability side effects that never feed back into
the detector's control flow and are not part of the state model; a
`DriftAlert`'s human-readable `message`, `current_value` and
`threshold` fields are presentation data derived from values the
theorems state directly, and are likewise omitted. -/

/-- Operation `deque.append` on a deque with `maxlen = w`: append, then evict from
the front down to `w` elements. -/
def pushBounded {α : Type} (w : ℕ) (xs : List α) (x : α) : List α :=
  let ys := xs ++ [x]
  ys.drop (ys.length - w)

/-- Python `statistics.mean` (only ever called on a non-empty list in the source). -/
def listMean (xs : List ℚ) : ℚ :=
  xs.sum / (xs.length : ℚ)

/-- The sample variance `Σ (x - x̄)² / (n - 1)` under `statistics.stdev`'s
square root; only ever used with `n ≥ 2` in the source paths we model. -/
def sampleVariance (xs : List ℚ) : ℚ :=
  let μ := listMean xs
  (xs.map fun x => (x - μ) ^ 2).sum / ((xs.length - 1 : ℕ) : ℚ)

/-- Decides `statistics.stdev(xs) > t` without leaving ℚ: for `t ≥ 0`
this is `variance > t²` (squaring is monotone on nonnegatives, and
`stdev = sqrt variance ≥ 0`); for `t < 0` it always holds. -/
def stdevGt (xs : List ℚ) (t : ℚ) : Bool :=
  if 0 ≤ t then decide (t ^ 2 < sampleVariance xs) else true

/-- Python `min` over a non-empty list (0 as junk value on `[]`,
unreached in the source). -/
def listMin : List ℚ → ℚ
  | [] => 0
  | x :: xs => xs.foldl min x

/-- Python `max` over a non-empty list (0 as junk value on `[]`,
unreached in the source). -/
def listMax : List ℚ → ℚ
  | [] => 0
  | x :: xs => xs.foldl max x

/-- Structure `DriftConfig` with the source's defaults. -/
structure DriftConfig where
  window_size : ℕ := 100
  min_samples : ℕ := 20
  accuracy_threshold : ℚ := 80 / 100
  drop_threshold : ℚ := 10 / 100
  volatility_threshold : ℚ := 15 / 100
  monitored_fields : List String :=
    ["invoice_number", "invoice_date", "supplier_name", "total_amount"]
  deriving DecidableEq

/-- The four alert-type strings emitted by `_check_drift`. -/
inductive AlertType where
  | threshold_breach
  | accuracy_drop
  | volatility
  | field_threshold_breach
  deriving DecidableEq

/-- Structure `DriftAlert` (identifying fields; see the section comment). -/
structure DriftAlert where
  alert_type : AlertType
  provider : String
  field : Option String
  deriving DecidableEq

/-- Structure `DriftSample` (the fields `_check_drift` and `get_stats` read, plus
the identifying `document_id`/`provider`; the stored `predicted` /
`expected` dicts and the timestamp are never read back by the detector). -/
structure DriftSample where
  document_id : String
  provider : String
  field_matches : List (String × Bool)
  overall_accuracy : ℚ
  deriving DecidableEq

/-- State of a `DriftDetector` instance.  `_field_accuracies` is a dict keyed
by the monitored fields; it is modelled as a total function that is `[]`
away from the keys the code touches. -/
structure DriftDetector where
  config : DriftConfig
  samples : List DriftSample := []
  baseline_accuracy : Option ℚ := Option.none
  alerts : List DriftAlert := []
  field_accuracies : String → List ℚ := fun _ => []

/-- Constructor `DriftDetector.__init__`. -/
def initDetector (config : DriftConfig) : DriftDetector :=
  { config := config }

/-- Python `getattr(invoice, field, None)` over the schema's attribute names. -/
def invoiceGetattr (inv : InvoiceData) (field : String) : Value :=
  match (evalFields ++ [("confidence_score", InvoiceData.confidence_score)]).lookup field with
  | some g => g inv
  | Option.none => Value.none

/-- Method `_invoice_to_dict`: reduce to the monitored fields, coercing
Decimal values to float. -/
def invoice_to_dict (cfg : DriftConfig) (inv : InvoiceData) : List (String × Value) :=
  cfg.monitored_fields.map fun f =>
    (f, match invoiceGetattr inv f with
        | .decimal q => .float q
        | v => v)

/-- Python truthiness of the optional `expected` dict
(`None` and `{}` are falsy). -/
def expectedTruthy : Option (List (String × Value)) → Bool
  | Option.none => false
  | some m => decide (m ≠ [])

/-- Python `expected.get(field) if expected else None` (a missing key and a
stored null both yield `None`). -/
def expectedGet (expected : Option (List (String × Value))) (f : String) : Value :=
  match expected with
  | Option.none => Value.none
  | some m => if m = [] then Value.none else ((m.lookup f).getD Value.none)

/-- The comparison `add_sample` performs for one monitored field:
`some match` when `expected` is truthy and supplies a non-null value,
`none` when the field is skipped. -/
def fieldOutcome (predicted_dict : List (String × Value))
    (expected : Option (List (String × Value))) (f : String) : Option Bool :=
  let pred_value := (predicted_dict.lookup f).getD Value.none
  let exp_value := expectedGet expected f
  if expectedTruthy expected ∧ exp_value ≠ Value.none then
    some (calculate_field_match exp_value pred_value)
  else Option.none

/-- Accumulator of `add_sample`'s field loop:
`(field_matches, overall_matches, total_fields, _field_accuracies)`. -/
abbrev ScoreAcc : Type :=
  List (String × Bool) × ℕ × ℕ × (String → List ℚ)

/-- One iteration of `add_sample`'s loop over `monitored_fields`. -/
def scoreStep (cfg : DriftConfig) (predicted_dict : List (String × Value))
    (expected : Option (List (String × Value))) (acc : ScoreAcc) (f : String) : ScoreAcc :=
  match fieldOutcome predicted_dict expected f with
  | some m =>
      (acc.1 ++ [(f, m)],
       acc.2.1 + (if m then 1 else 0),
       acc.2.2.1 + 1,
       fun g => if g = f then
           pushBounded cfg.window_size (acc.2.2.2 g) (if m then 1 else 0)
         else acc.2.2.2 g)
  | Option.none => acc

/-- The field loop of `add_sample`, starting from the detector's current
per-field buffers. -/
def scoreFields (cfg : DriftConfig) (fa : String → List ℚ)
    (predicted_dict : List (String × Value))
    (expected : Option (List (String × Value))) : ScoreAcc :=
  cfg.monitored_fields.foldl (scoreStep cfg predicted_dict expected) ([], 0, 0, fa)

/-- The `DriftSample` `add_sample` constructs for one call (it depends
only on the call's arguments and the configuration, not on the
detector's buffers). -/
def sampleOf (cfg : DriftConfig) (document_id provider : String)
    (predicted : InvoiceData) (expected : Option (List (String × Value))) : DriftSample :=
  let predicted_dict := invoice_to_dict cfg predicted
  let r := scoreFields cfg (fun _ => []) predicted_dict expected
  let overall_accuracy : ℚ := if r.2.2.1 > 0 then (r.2.1 : ℚ) / (r.2.2.1 : ℚ) else 0
  ⟨document_id, provider, r.1, overall_accuracy⟩

/-- Method `_check_drift`: the four-check cascade, returning the updated state
(alert log extended) and the triggered alerts. -/
def check_drift (st : DriftDetector) (provider : String) :
    DriftDetector × List DriftAlert :=
  if st.samples.length < st.config.min_samples then (st, [])
  else
    let recent_accuracies := st.samples.map DriftSample.overall_accuracy
    let rolling_accuracy := listMean recent_accuracies
    let a1 : List DriftAlert :=
      if rolling_accuracy < st.config.accuracy_threshold then
        [⟨.threshold_breach, provider, Option.none⟩]
      else []
    let a2 : List DriftAlert :=
      match st.baseline_accuracy with
      | some b =>
          if b - rolling_accuracy > st.config.drop_threshold then
            [⟨.accuracy_drop, provider, Option.none⟩]
          else []
      | Option.none => []
    let a3 : List DriftAlert :=
      if 10 ≤ recent_accuracies.length ∧
          stdevGt recent_accuracies st.config.volatility_threshold = true then
        [⟨.volatility, provider, Option.none⟩]
      else []
    let a4 : List DriftAlert :=
      st.config.monitored_fields.filterMap fun f =>
        let field_samples := st.field_accuracies f
        if st.config.min_samples ≤ field_samples.length ∧
            listMean field_samples < st.config.accuracy_threshold then
          some ⟨.field_threshold_breach, provider, some f⟩
        else Option.none
    let triggered := a1 ++ a2 ++ a3 ++ a4
    ({ st with alerts := st.alerts ++ triggered }, triggered)

/-- Method `add_sample(document_id, provider, predicted, expected)`: score the
monitored fields, append the sample to the window, then run
`_check_drift`.  Returns the updated detector and the triggered alerts. -/
def add_sample (st : DriftDetector) (document_id provider : String)
    (predicted : InvoiceData) (expected : Option (List (String × Value))) :
    DriftDetector × List DriftAlert :=
  let predicted_dict := invoice_to_dict st.config predicted
  let r := scoreFields st.config st.field_accuracies predicted_dict expected
  let sample := sampleOf st.config document_id provider predicted expected
  let st1 := { st with
    samples := pushBounded st.config.window_size st.samples sample,
    field_accuracies := r.2.2.2 }
  check_drift st1 provider

/-- Method `set_baseline(accuracy)`. -/
def set_baseline (st : DriftDetector) (accuracy : ℚ) : DriftDetector :=
  { st with baseline_accuracy := some accuracy }

/-- Method `clear()`: empty window, per-field buffers and alert log. -/
def clear (st : DriftDetector) : DriftDetector :=
  { st with samples := [], alerts := [], field_accuracies := fun _ => [] }

/-- A value in the `get_stats()` dictionary.  `sqrtOf v` stands for the
(possibly irrational) `statistics.stdev` result whose square is the
sample variance `v`; it is kept symbolic so the embedding stays
executable. -/
inductive StatVal where
  | nat (n : ℕ)
  | rat (q : ℚ)
  | sqrtOf (q : ℚ)
  | null
  | alertsList (l : List AlertType)
  deriving DecidableEq

/-- Method `get_stats()`: the short dictionary on an empty window, the full
dictionary otherwise (`accuracy_std_dev` is the literal `0.0` for a
single sample and `stdev(...)` for two or more). -/
def get_stats (st : DriftDetector) : List (String × StatVal) :=
  if st.samples.length = 0 then
    [("sample_count", .nat 0),
     ("rolling_accuracy", .null),
     ("baseline_accuracy", match st.baseline_accuracy with
        | some b => .rat b
        | Option.none => .null),
     ("alerts_count", .nat st.alerts.length)]
  else
    let recent_accuracies := st.samples.map DriftSample.overall_accuracy
    [("sample_count", .nat st.samples.length),
     ("rolling_accuracy", .rat (listMean recent_accuracies)),
     ("accuracy_std_dev",
       if 1 < recent_accuracies.length then .sqrtOf (sampleVariance recent_accuracies)
       else .rat 0),
     ("baseline_accuracy", match st.baseline_accuracy with
        | some b => .rat b
        | Option.none => .null),
     ("min_accuracy", .rat (listMin recent_accuracies)),
     ("max_accuracy", .rat (listMax recent_accuracies)),
     ("alerts_count", .nat st.alerts.length),
     ("recent_alerts",
       .alertsList ((st.alerts.drop (st.alerts.length - 5)).map DriftAlert.alert_type))]

/-- The last `w` elements of a list (what a `deque(maxlen = w)` retains
after its contents were pushed in order). -/
def takeLastW {α : Type} (w : ℕ) (xs : List α) : List α :=
  xs.drop (xs.length - w)

/-- One argument tuple for `add_sample`:
`(document_id, provider, predicted, expected)`. -/
abbrev SampleInput : Type :=
  String × String × InvoiceData × Option (List (String × Value))

/-- Ingest a sequence of samples, keeping the detector state
(`add_sample` is called once per input, alerts discarded). -/
def runSamples (st : DriftDetector) (inputs : List SampleInput) : DriftDetector :=
  inputs.foldl (fun s i => (add_sample s i.1 i.2.1 i.2.2.1 i.2.2.2).1) st

/-- The values one `add_sample` call pushes onto the rolling buffer of
field `f` (one `1.0`/`0.0` per occurrence of `f` in `monitored_fields`
that is scored on this call). -/
def callPushes (cfg : DriftConfig) (predicted : InvoiceData)
    (expected : Option (List (String × Value))) (f : String) : List ℚ :=
  cfg.monitored_fields.filterMap fun g =>
    if g = f then
      (fieldOutcome (invoice_to_dict cfg predicted) expected g).map
        fun m => if m then (1 : ℚ) else 0
    else Option.none

/-! ## Theorems -/

theorem ratAbs_eq_abs (q : ℚ) : ratAbs q = |q| := by
  unfold ratAbs
  rcases lt_or_le q 0 with h | h
  · rw [if_pos h, abs_of_neg h]
  · rw [if_neg (not_lt.mpr h), abs_of_nonneg h]

theorem isDateLike_not_numeric (v : Value) (h : isDateLike v = true) :
    v.isNumeric = false := by
  cases v <;> simp_all [isDateLike, Value.isNumeric]

/-- C1: for every field accessor and every pair of records whose expected
and predicted values are both non-null and fail the comparator, one loop
iteration of the scorer increments BOTH the false_positive and the
false_negative counter by one, so the pair contributes 1 to each in the
resulting tally. -/
theorem C1_confusion_double_count (g : InvoiceData → Value) (acc : ConfusionTally)
    (e p : InvoiceData) (he : g e ≠ Value.none) (hp : g p ≠ Value.none)
    (hm : calculate_field_match (g e) (g p) = false) :
    confusionStep g acc (e, p) =
      { acc with false_positive := acc.false_positive + 1,
                 false_negative := acc.false_negative + 1 } ∧
    ∀ pairs, confusionCounts g (pairs ++ [(e, p)]) =
      { confusionCounts g pairs with
          false_positive := (confusionCounts g pairs).false_positive + 1,
          false_negative := (confusionCounts g pairs).false_negative + 1 } := by
  have hstep : ∀ a : ConfusionTally, confusionStep g a (e, p) =
      { a with false_positive := a.false_positive + 1,
               false_negative := a.false_negative + 1 } := by
    intro a
    simp [confusionStep, he, hp, hm]
  refine ⟨hstep acc, fun pairs => ?_⟩
  rw [confusionCounts, List.foldl_append]
  exact hstep _

/-- C1 witness: expected "A" vs predicted "B" on one sample raises both
counters from 0 to 1. -/
theorem C1_witness :
    confusionStep (fun i => i.invoice_number) ⟨0, 0, 0⟩
      ({ invoice_number := Value.str "A" }, { invoice_number := Value.str "B" }) =
      ⟨0, 1, 1⟩ :=
  (C1_confusion_double_count (fun i => i.invoice_number) ⟨0, 0, 0⟩
    { invoice_number := Value.str "A" } { invoice_number := Value.str "B" }
    (by decide) (by decide) (by decide)).1

/-- C3: on any two values of the numeric kinds (integer, float, decimal,
in any combination) the comparator returns true iff the absolute
difference of their float conversions is strictly below 0.01. -/
theorem C3_numeric_tolerance (e p : Value)
    (he : e.isPureNumeric = true) (hp : p.isPureNumeric = true) :
    calculate_field_match e p = true ↔
      ratAbs (e.toFloat - p.toFloat) < 1 / 100 := by
  cases e <;> cases p <;>
    simp_all [calculate_field_match, Value.isPureNumeric, Value.isNumeric]

/-- C3 witness: `matches(100.00, 100.009)` is true and
`matches(100.00, 100.011)` is false — the 0.01 bound is exclusive. -/
theorem C3_witness :
    calculate_field_match (Value.float 100) (Value.float (100009 / 1000)) = true ∧
    calculate_field_match (Value.float 100) (Value.float (100011 / 1000)) = false := by
  constructor
  · exact (C3_numeric_tolerance (Value.float 100) (Value.float (100009 / 1000))
      (by decide) (by decide)).mpr (by with_unfolding_all decide)
  · have h := C3_numeric_tolerance (Value.float 100) (Value.float (100011 / 1000))
      (by decide) (by decide)
    revert h
    with_unfolding_all decide

/-- C4: when both non-null values look like dates (native date, or a
10-character string with `-` at index 4) the comparator returns string
equality of the normalized `YYYY-MM-DD` forms; when exactly one side
looks like a date it instead applies the normalized-string rule or the
fallback (`matchTail`), never a date comparison. -/
theorem C4_date_heuristic (e p : Value) (he : e ≠ Value.none) (hp : p ≠ Value.none) :
    (isDateLike e = true → isDateLike p = true →
      (calculate_field_match e p = true ↔ normalize_date e = normalize_date p)) ∧
    (isDateLike e ≠ isDateLike p → calculate_field_match e p = matchTail e p) := by
  have h1 : ¬(e = Value.none ∧ p = Value.none) := fun h => he h.1
  have h2 : ¬(e = Value.none ∨ p = Value.none) := by
    rintro (h | h)
    exacts [he h, hp h]
  constructor
  · intro hde hdp
    have hnum : ¬(Value.isNumeric e = true ∧ Value.isNumeric p = true) := by
      intro hc
      rw [isDateLike_not_numeric e hde] at hc
      exact Bool.false_ne_true hc.1
    simp only [calculate_field_match]
    rw [if_neg h1, if_neg h2, if_neg hnum, if_pos ⟨hde, hdp⟩]
    exact decide_eq_true_iff
  · intro hne
    have hdate : ¬(isDateLike e = true ∧ isDateLike p = true) := by
      intro hc
      exact hne (hc.1.trans hc.2.symm)
    have hnum : ¬(Value.isNumeric e = true ∧ Value.isNumeric p = true) := by
      intro hc
      rcases Bool.eq_false_or_eq_true (isDateLike e) with hbe | hbe
      · rw [isDateLike_not_numeric e hbe] at hc
        exact Bool.false_ne_true hc.1
      · rcases Bool.eq_false_or_eq_true (isDateLike p) with hbp | hbp
        · rw [isDateLike_not_numeric p hbp] at hc
          exact Bool.false_ne_true hc.2
        · exact hne (hbe.trans hbp.symm)
    simp only [calculate_field_match]
    rw [if_neg h1, if_neg h2, if_neg hnum, if_neg hdate]

/-- C4 witness: `matches(date(2024,1,15), "2024-01-15")` is true;
`matches("2024-01-15", "2024-01-16")` is false. -/
theorem C4_witness :
    calculate_field_match (Value.date 2024 1 15) (Value.str "2024-01-15") = true ∧
    calculate_field_match (Value.str "2024-01-15") (Value.str "2024-01-16") = false := by
  constructor
  · exact ((C4_date_heuristic (Value.date 2024 1 15) (Value.str "2024-01-15")
      (by decide) (by decide)).1 (by decide) (by decide)).mpr (by decide)
  · have h := (C4_date_heuristic (Value.str "2024-01-15") (Value.str "2024-01-16")
      (by decide) (by decide)).1 (by decide) (by decide)
    revert h
    decide

/-- C5: the scorer fails with the length-mismatch error exactly when the
batches differ in length; on equal lengths it returns a complete report —
`total_samples` is the batch length, all ten fields are present and each
carries `support` equal to the full batch length (no truncation). -/
theorem C5_length_precondition (expected predicted : List InvoiceData) :
    (expected.length ≠ predicted.length →
      evaluate_extraction expected predicted =
        Except.error "Expected and predicted lists must have same length") ∧
    (expected.length = predicted.length →
      ∃ r, evaluate_extraction expected predicted = Except.ok r ∧
        r.total_samples = expected.length ∧
        r.field_metrics.length = 10 ∧
        ∀ m ∈ r.field_metrics, m.2.support = expected.length) := by
  constructor
  · intro h
    rw [evaluate_extraction, if_pos h]
  · intro h
    rw [evaluate_extraction, if_neg (by simp [h])]
    refine ⟨_, rfl, rfl, by simp [evalFields], ?_⟩
    intro m hm
    simp only [List.mem_map] at hm
    obtain ⟨a, _, rfl⟩ := hm
    rfl

/-- C5 witness: a 0-vs-1 length mismatch errors; two singleton batches
evaluate to a complete report. -/
theorem C5_witness :
    (evaluate_extraction [] [{}] =
      Except.error "Expected and predicted lists must have same length") ∧
    ∃ r, evaluate_extraction [({ invoice_number := Value.str "A" } : InvoiceData)]
        [({ invoice_number := Value.str "A" } : InvoiceData)] = Except.ok r ∧
      r.total_samples = 1 ∧ r.field_metrics.length = 10 ∧
      ∀ m ∈ r.field_metrics, m.2.support = 1 :=
  ⟨(C5_length_precondition [] [{}]).1 (by decide),
   (C5_length_precondition [{ invoice_number := Value.str "A" }]
      [{ invoice_number := Value.str "A" }]).2 rfl⟩

/-- C8: the comparator is total — it returns a boolean on every pair of
run-time values — and any non-null pair that matches no typed rule (not
both numeric, not both date-like, not both strings) resolves to `false`
through the raw-equality fallback. -/
theorem C8_total_and_fallback (e p : Value) :
    (calculate_field_match e p = true ∨ calculate_field_match e p = false) ∧
    (e ≠ Value.none → p ≠ Value.none →
      ¬(e.isNumeric = true ∧ p.isNumeric = true) →
      ¬(isDateLike e = true ∧ isDateLike p = true) →
      ¬(e.isStr = true ∧ p.isStr = true) →
      calculate_field_match e p = false) := by
  constructor
  · rcases Bool.eq_false_or_eq_true (calculate_field_match e p) with h | h
    · exact Or.inl h
    · exact Or.inr h
  intro he hp hnum hdate hstr
  cases e <;> cases p <;>
    simp_all [calculate_field_match, Value.isNumeric, Value.isStr, isDateLike,
      matchTail, pyEq]

/-- C8 witness: a string compared against an integer is a type mismatch
and yields `false` (no error). -/
theorem C8_witness :
    calculate_field_match (Value.str "x") (Value.int 3) = false :=
  (C8_total_and_fallback (Value.str "x") (Value.int 3)).2
    (by decide) (by decide) (by decide) (by decide) (by decide)

/-- C10: evaluating two empty batches succeeds and returns
`total_samples = 0`, ten per-field entries all with precision, recall
and F1 equal to 0.0 and support 0, and `macro_f1 = 0` (the macro mean
divides by the fixed field count, never by the batch size). -/
theorem C10_empty_batches :
    ∃ r, evaluate_extraction [] [] = Except.ok r ∧
      r.total_samples = 0 ∧ r.macro_f1 = 0 ∧
      r.field_metrics.length = 10 ∧
      ∀ m ∈ r.field_metrics,
        m.2.precision = 0 ∧ m.2.«recall» = 0 ∧ m.2.f1 = 0 ∧ m.2.support = 0 := by
  exact ⟨_, rfl, by decide, by with_unfolding_all decide, by decide,
    by with_unfolding_all decide⟩

/-- C7: `clear()` empties the window, every per-field buffer, and the
alert log, while leaving the baseline untouched; in particular after
`set_baseline(0.85)` then `clear()`, the baseline still reads 0.85 and
`get_stats()` reports `sample_count = 0`. -/
theorem C7_clear_preserves_baseline (st : DriftDetector) :
    (clear st).samples = [] ∧ (clear st).alerts = [] ∧
    (∀ f, (clear st).field_accuracies f = []) ∧
    (clear st).baseline_accuracy = st.baseline_accuracy ∧
    (clear (set_baseline st (85 / 100))).baseline_accuracy = some (85 / 100) ∧
    (get_stats (clear st)).lookup "sample_count" = some (.nat 0) := by
  exact ⟨rfl, rfl, fun f => rfl, rfl, rfl, rfl⟩

/-- C9 counterexample: on a fresh detector (empty window, hence fewer
than two samples) `get_stats()` returns the short dictionary with NO
`accuracy_std_dev` entry at all, refuting the claim that the entry reads
0.0 whenever the window holds fewer than two samples. -/
theorem C9_counterexample :
    (get_stats (initDetector {})).lookup "accuracy_std_dev" = Option.none ∧
    ¬((get_stats (initDetector {})).lookup "accuracy_std_dev" =
        some (StatVal.rat 0)) := by
  exact ⟨rfl, by decide⟩

/-- C9 amended: `get_stats()` never errors; with exactly one sample the
`accuracy_std_dev` entry reads 0.0; `sample_count` always equals the
window length; on the empty window `rolling_accuracy` reads null and the
`accuracy_std_dev` key is absent. -/
theorem C9_amended_stats (st : DriftDetector) :
    (st.samples.length = 1 →
      (get_stats st).lookup "accuracy_std_dev" = some (.rat 0)) ∧
    (get_stats st).lookup "sample_count" = some (.nat st.samples.length) ∧
    (st.samples = [] →
      (get_stats st).lookup "rolling_accuracy" = some .null ∧
      (get_stats st).lookup "accuracy_std_dev" = Option.none) := by
  rcases hs : st.samples with _ | ⟨a, l⟩
  · refine ⟨fun h => absurd h (by simp), ?_, fun _ => ⟨?_, ?_⟩⟩ <;>
      simp [get_stats, hs, List.lookup]
  · refine ⟨fun h => ?_, ?_, fun h => absurd h (by simp)⟩
    · have hl : l = [] := by
        simpa using h
      subst hl
      simp [get_stats, hs, List.lookup]
    · simp [get_stats, hs, List.lookup]

theorem check_drift_samples (st : DriftDetector) (provider : String) :
    (check_drift st provider).1.samples = st.samples ∧
    (check_drift st provider).1.config = st.config ∧
    (check_drift st provider).1.field_accuracies = st.field_accuracies ∧
    (check_drift st provider).1.baseline_accuracy = st.baseline_accuracy := by
  unfold check_drift
  split
  · exact ⟨rfl, rfl, rfl, rfl⟩
  · exact ⟨rfl, rfl, rfl, rfl⟩

theorem check_drift_breach_iff (st : DriftDetector) (provider : String) :
    ((∃ a ∈ (check_drift st provider).2,
        a.alert_type = AlertType.threshold_breach) ↔
      (st.config.min_samples ≤ st.samples.length ∧
        listMean (st.samples.map DriftSample.overall_accuracy) <
          st.config.accuracy_threshold)) ∧
    (st.samples.length < st.config.min_samples →
      (check_drift st provider).2 = []) := by
  by_cases h : st.samples.length < st.config.min_samples
  · simp only [check_drift, if_pos h]
    refine ⟨?_, fun _ => trivial⟩
    simp only [List.not_mem_nil, false_and, exists_false, false_iff, not_and]
    intro hc
    exact absurd hc (not_le.mpr h)
  · simp only [check_drift, if_neg h]
    refine ⟨?_, fun hlt => absurd hlt h⟩
    by_cases hb : listMean (st.samples.map DriftSample.overall_accuracy) <
        st.config.accuracy_threshold
    · constructor
      · intro _
        exact ⟨not_lt.mp h, hb⟩
      · intro _
        refine ⟨⟨.threshold_breach, provider, Option.none⟩, ?_, rfl⟩
        rw [if_pos hb]
        simp
    · constructor
      · rintro ⟨a, ha, hty⟩
        rw [if_neg hb] at ha
        simp only [List.nil_append, List.mem_append, List.mem_filterMap] at ha
        rcases ha with (ha | ha) | ⟨f, -, hf⟩
        · split at ha
          · split at ha
            · simp only [List.mem_singleton] at ha
              subst ha
              exact AlertType.noConfusion hty
            · simp at ha
          · simp at ha
        · split at ha
          · simp only [List.mem_singleton] at ha
            subst ha
            exact AlertType.noConfusion hty
          · simp at ha
        · split at hf
          · cases hf
            exact AlertType.noConfusion hty
          · exact Option.noConfusion hf
      · rintro ⟨-, hm⟩
        exact absurd hm hb

/-- C2: one `add_sample` call returns a `threshold_breach` alert exactly
when, after the new sample is appended, the window holds at least
`min_samples` samples and the mean of `overall_accuracy` over the window
is strictly below `accuracy_threshold`; below `min_samples` the returned
list is empty, and in every case the new sample is appended to the
window (FIFO-bounded). -/
theorem C2_threshold_breach_iff (st : DriftDetector) (document_id provider : String)
    (predicted : InvoiceData) (expected : Option (List (String × Value))) :
    ((∃ a ∈ (add_sample st document_id provider predicted expected).2,
        a.alert_type = AlertType.threshold_breach) ↔
      (st.config.min_samples ≤
          (add_sample st document_id provider predicted expected).1.samples.length ∧
        listMean ((add_sample st document_id provider predicted expected).1.samples.map
            DriftSample.overall_accuracy) < st.config.accuracy_threshold)) ∧
    ((add_sample st document_id provider predicted expected).1.samples.length <
        st.config.min_samples →
      (add_sample st document_id provider predicted expected).2 = []) ∧
    (add_sample st document_id provider predicted expected).1.samples =
      pushBounded st.config.window_size st.samples
        (sampleOf st.config document_id provider predicted expected) := by
  set st1 : DriftDetector := { st with
    samples := pushBounded st.config.window_size st.samples
      (sampleOf st.config document_id provider predicted expected),
    field_accuracies := (scoreFields st.config st.field_accuracies
      (invoice_to_dict st.config predicted) expected).2.2.2 } with hst1
  have hadd : add_sample st document_id provider predicted expected =
      check_drift st1 provider := rfl
  rw [hadd]
  obtain ⟨hsam, -, -, -⟩ := check_drift_samples st1 provider
  obtain ⟨hiff, hempty⟩ := check_drift_breach_iff st1 provider
  rw [hsam]
  exact ⟨hiff, hempty, rfl⟩

/-- C2 witness: with `min_samples = 1` and `accuracy_threshold = 0.80`,
the very first all-wrong sample triggers a `threshold_breach` alert. -/
theorem C2_witness :
    ∃ a ∈ (add_sample (initDetector ⟨5, 1, 80 / 100, 10 / 100, 15 / 100,
        ["invoice_number"]⟩) "d1" "p" {}
        (some [("invoice_number", Value.str "A")])).2,
      a.alert_type = AlertType.threshold_breach :=
  ((C2_threshold_breach_iff (initDetector ⟨5, 1, 80 / 100, 10 / 100, 15 / 100,
      ["invoice_number"]⟩) "d1" "p" {}
      (some [("invoice_number", Value.str "A")])).1).mpr
    (by with_unfolding_all decide)

theorem takeLastW_length {α : Type} (w : ℕ) (xs : List α) :
    (takeLastW w xs).length = min xs.length w := by
  simp only [takeLastW, List.length_drop]
  omega

theorem takeLastW_append {α : Type} (w : ℕ) (xs ys : List α) :
    takeLastW w (takeLastW w xs ++ ys) = takeLastW w (xs ++ ys) := by
  unfold takeLastW
  rw [List.drop_append_eq_append_drop, List.drop_append_eq_append_drop, List.drop_drop]
  simp only [List.length_append, List.length_drop]
  congr 1
  · congr 1
    omega
  · congr 1
    omega

theorem pushBounded_eq_takeLastW {α : Type} (w : ℕ) (xs : List α) (x : α) :
    pushBounded w xs x = takeLastW w (xs ++ [x]) := rfl

theorem foldl_pushBounded {α : Type} (w : ℕ) (ys : List α) :
    ∀ init : List α, init.length ≤ w →
      List.foldl (pushBounded w) init ys = takeLastW w (init ++ ys) := by
  induction ys with
  | nil =>
    intro init h
    simp [takeLastW, Nat.sub_eq_zero_of_le h]
  | cons y ys ih =>
    intro init h
    rw [List.foldl_cons, ih _ ?bound, pushBounded_eq_takeLastW, takeLastW_append,
      List.append_assoc, List.singleton_append]
    case bound =>
      rw [pushBounded_eq_takeLastW, takeLastW_length]
      exact min_le_right _ _

theorem scoreFields_fa (cfg : DriftConfig) (pd : List (String × Value))
    (exp : Option (List (String × Value))) (L : List String) (f : String) :
    ∀ acc : ScoreAcc,
      (L.foldl (scoreStep cfg pd exp) acc).2.2.2 f =
        List.foldl (pushBounded cfg.window_size) (acc.2.2.2 f)
          (L.filterMap fun g => if g = f then
              (fieldOutcome pd exp g).map fun m => if m then (1 : ℚ) else 0
            else Option.none) := by
  induction L with
  | nil => intro acc; rfl
  | cons g L ih =>
    intro acc
    rw [List.foldl_cons, List.filterMap_cons, ih]
    rcases ho : fieldOutcome pd exp g with _ | m
    · have hstep : scoreStep cfg pd exp acc g = acc := by
        simp [scoreStep, ho]
      rw [hstep]
      simp
    · by_cases hgf : g = f
      · have hstep : (scoreStep cfg pd exp acc g).2.2.2 f =
            pushBounded cfg.window_size (acc.2.2.2 f) (if m then (1 : ℚ) else 0) := by
          subst hgf
          simp [scoreStep, ho]
        rw [hstep]
        simp [hgf]
      · have hfg : ¬ f = g := fun heq => hgf heq.symm
        have hstep : (scoreStep cfg pd exp acc g).2.2.2 f = acc.2.2.2 f := by
          simp [scoreStep, ho, hfg]
        rw [hstep]
        simp [hgf]

theorem add_sample_state (st : DriftDetector) (did prov : String)
    (predicted : InvoiceData) (expected : Option (List (String × Value))) :
    (add_sample st did prov predicted expected).1.config = st.config ∧
    (add_sample st did prov predicted expected).1.samples =
      pushBounded st.config.window_size st.samples
        (sampleOf st.config did prov predicted expected) ∧
    ∀ f, (add_sample st did prov predicted expected).1.field_accuracies f =
      List.foldl (pushBounded st.config.window_size) (st.field_accuracies f)
        (callPushes st.config predicted expected f) := by
  set st1 : DriftDetector := { st with
    samples := pushBounded st.config.window_size st.samples
      (sampleOf st.config did prov predicted expected),
    field_accuracies := (scoreFields st.config st.field_accuracies
      (invoice_to_dict st.config predicted) expected).2.2.2 } with hst1
  have hadd : add_sample st did prov predicted expected = check_drift st1 prov := rfl
  obtain ⟨hsam, hcfg, hfa, -⟩ := check_drift_samples st1 prov
  rw [hadd, hsam, hcfg, hfa]
  refine ⟨rfl, rfl, fun f => ?_⟩
  have h := scoreFields_fa st.config (invoice_to_dict st.config predicted) expected
    st.config.monitored_fields f ([], 0, 0, st.field_accuracies)
  exact h

theorem runSamples_state (cfg : DriftConfig) (inputs : List SampleInput) :
    ∀ st : DriftDetector, st.config = cfg →
      (runSamples st inputs).config = cfg ∧
      (runSamples st inputs).samples =
        List.foldl (pushBounded cfg.window_size) st.samples
          (inputs.map fun i => sampleOf cfg i.1 i.2.1 i.2.2.1 i.2.2.2) ∧
      ∀ f, (runSamples st inputs).field_accuracies f =
        List.foldl (pushBounded cfg.window_size) (st.field_accuracies f)
          (inputs.flatMap fun i => callPushes cfg i.2.2.1 i.2.2.2 f) := by
  induction inputs with
  | nil =>
    intro st hc
    exact ⟨hc, rfl, fun f => rfl⟩
  | cons i is ih =>
    intro st hc
    obtain ⟨hcfg, hsam, hfa⟩ := add_sample_state st i.1 i.2.1 i.2.2.1 i.2.2.2
    have hrun : runSamples st (i :: is) =
        runSamples ((add_sample st i.1 i.2.1 i.2.2.1 i.2.2.2).1) is := rfl
    obtain ⟨ih1, ih2, ih3⟩ := ih _ (hcfg.trans hc)
    refine ⟨by rw [hrun]; exact ih1, ?_, fun f => ?_⟩
    · rw [hrun, ih2, hsam, hc, List.map_cons, List.foldl_cons]
    · rw [hrun, ih3 f, hfa f, hc, List.flatMap_cons, List.foldl_append]

/-- C6: starting from a fresh detector, after `n` calls to `add_sample`
the window holds exactly `min n window_size` samples — the most recently
constructed samples, in insertion order (FIFO eviction) — and every
field's rolling buffer likewise holds the `min k window_size` most
recent of the `k` outcomes pushed for that field. -/
theorem C6_window_fifo (cfg : DriftConfig) (inputs : List SampleInput) :
    (runSamples (initDetector cfg) inputs).samples =
      takeLastW cfg.window_size
        (inputs.map fun i => sampleOf cfg i.1 i.2.1 i.2.2.1 i.2.2.2) ∧
    (runSamples (initDetector cfg) inputs).samples.length =
      min inputs.length cfg.window_size ∧
    ∀ f, (runSamples (initDetector cfg) inputs).field_accuracies f =
        takeLastW cfg.window_size
          (inputs.flatMap fun i => callPushes cfg i.2.2.1 i.2.2.2 f) ∧
      ((runSamples (initDetector cfg) inputs).field_accuracies f).length =
        min (inputs.flatMap fun i => callPushes cfg i.2.2.1 i.2.2.2 f).length
          cfg.window_size := by
  obtain ⟨-, hsam, hfa⟩ := runSamples_state cfg inputs (initDetector cfg) rfl
  have h1 : (runSamples (initDetector cfg) inputs).samples =
      takeLastW cfg.window_size
        (inputs.map fun i => sampleOf cfg i.1 i.2.1 i.2.2.1 i.2.2.2) := by
    have hinit : (initDetector cfg).samples = [] := rfl
    rw [hsam, hinit, foldl_pushBounded _ _ _ (by simp), List.nil_append]
  refine ⟨h1, ?_, fun f => ?_⟩
  · rw [h1, takeLastW_length, List.length_map]
  · have h2 : (runSamples (initDetector cfg) inputs).field_accuracies f =
        takeLastW cfg.window_size
          (inputs.flatMap fun i => callPushes cfg i.2.2.1 i.2.2.2 f) := by
      have hinit : (initDetector cfg).field_accuracies f = [] := rfl
      rw [hfa f, hinit, foldl_pushBounded _ _ _ (by simp), List.nil_append]
    exact ⟨h2, by rw [h2, takeLastW_length]⟩

/-- C9 witness: a detector holding exactly one sample reports
`accuracy_std_dev = 0.0`. -/
theorem C9_amended_witness :
    (get_stats { config := {}, samples := [⟨"d", "p", [], 1⟩] }).lookup
      "accuracy_std_dev" = some (.rat 0) :=
  (C9_amended_stats { config := {}, samples := [⟨"d", "p", [], 1⟩] }).1 (by decide)

end DocIntel
